import Mathlib

/-!
Shallow embedding of the discount-code lifecycle manager
(`api/generate-discount.js` and `api/maintenance.js`) of the
mishmush-discount repository, together with proofs of the spec claims.

Strings are Lean `String`s; where the JavaScript scans characters we work
on `String.data` (the list of characters).  Timestamps are integers in
milliseconds.  Remote calls are modelled by explicit outcome parameters
(`Except String _` values), and handlers return traces recording which
calls were made, so that claims about call counts and absent writes can
be stated.
-/

namespace MishMush

/-- Substring search on character lists: `true` iff `pat` occurs
contiguously in the second list (models JavaScript
`String.prototype.includes` / a literal regex test). -/
def listContainsSub (pat : List Char) : List Char → Bool
  | [] => pat.isEmpty
  | c :: rest => pat.isPrefixOf (c :: rest) || listContainsSub pat rest

/-- The capture group `(\d+)`: the maximal leading run of decimal digits. -/
def digitRun : List Char → List Char
  | [] => []
  | c :: cs => if c.isDigit then c :: digitRun cs else []

/-- The literal part of the regex `gid:\/\/shopify\/Customer\/(\d+)` from
`normalizeCustomerIds` (`api/generate-discount.js` line 14). -/
def gidLit : List Char := "gid://shopify/Customer/".data

/-- First match of the regex `gid:\/\/shopify\/Customer\/(\d+)` on a
character list, returning the captured digit run: at each position, the
literal must occur followed by at least one digit; otherwise scanning
resumes at the next position (as a backtracking regex engine does). -/
def matchGidAux : List Char → Option (List Char)
  | [] => none
  | c :: rest =>
    if gidLit.isPrefixOf (c :: rest) then
      let cap := digitRun ((c :: rest).drop gidLit.length)
      if cap.isEmpty then matchGidAux rest else some cap
    else matchGidAux rest

/-- Result record of `normalizeCustomerIds`. -/
structure CustomerIds where
  numericId : String
  gid : String
deriving DecidableEq, Repr

/-- Model of `normalizeCustomerIds` (`api/generate-discount.js` lines 11-18):
Shopify may send either a numeric ID or a GID like
`gid://shopify/Customer/123`; the function extracts the numeric id via
the regex and rebuilds the GID form.  The input is modelled as the
string the JavaScript coerces the raw value to. -/
def normalizeCustomerIds (rawCustomerId : String) : CustomerIds :=
  let asString := rawCustomerId
  match matchGidAux asString.data with
  | some cap => { numericId := ⟨cap⟩, gid := asString }
  | none => { numericId := asString, gid := "gid://shopify/Customer/" ++ asString }

lemma digitRun_of_all_digits (n : List Char) (h : ∀ c ∈ n, c.isDigit = true) :
    digitRun n = n := by
  induction n with
  | nil => rfl
  | cons c cs ih =>
    simp only [digitRun, h c (List.mem_cons_self c cs), if_true]
    rw [ih (fun d hd => h d (List.mem_cons_of_mem c hd))]

lemma gidLit_not_prefix_of_digit (c : Char) (rest : List Char)
    (hc : c.isDigit = true) : gidLit.isPrefixOf (c :: rest) = false := by
  have hg : gidLit = 'g' :: "id://shopify/Customer/".data := by decide
  rw [hg]
  simp only [List.isPrefixOf, Bool.and_eq_false_iff]
  left
  rw [beq_eq_false_iff_ne]
  intro h
  rw [← h] at hc
  simp [Char.isDigit] at hc

lemma matchGidAux_all_digits (n : List Char) (h : ∀ c ∈ n, c.isDigit = true) :
    matchGidAux n = none := by
  induction n with
  | nil => rfl
  | cons c cs ih =>
    have hd := h c (List.mem_cons_self c cs)
    simp only [matchGidAux, gidLit_not_prefix_of_digit c cs hd, Bool.false_eq_true,
      if_false]
    exact ih (fun d hdm => h d (List.mem_cons_of_mem c hdm))

lemma matchGidAux_on_gid (n : List Char) (hne : n ≠ [])
    (h : ∀ c ∈ n, c.isDigit = true) :
    matchGidAux (gidLit ++ n) = some n := by
  have hcons : gidLit ++ n = 'g' :: ("id://shopify/Customer/".data ++ n) := by
    rfl
  rw [hcons, matchGidAux]
  have hpre : gidLit.isPrefixOf ('g' :: ("id://shopify/Customer/".data ++ n)) = true := by
    rw [← hcons]
    exact List.isPrefixOf_iff_prefix.mpr (List.prefix_append gidLit n)
  rw [hpre]
  simp only [if_true]
  have hdrop : ('g' :: ("id://shopify/Customer/".data ++ n)).drop gidLit.length = n := by
    rw [← hcons]
    exact List.drop_left gidLit n
  rw [hdrop, digitRun_of_all_digits n h]
  simp [List.isEmpty_iff, hne]

/-- C3: customer-id normalization is form-insensitive.  For every
non-empty all-digit id string `n`, normalizing the raw form `n` and
normalizing the namespaced form `"gid://shopify/Customer/" ++ n` yield
the same canonical numeric id `n` and the same canonical URI id
`"gid://shopify/Customer/" ++ n`. -/
theorem normalize_form_insensitive (n : String) (h1 : n.data ≠ [])
    (h2 : ∀ c ∈ n.data, c.isDigit = true) :
    normalizeCustomerIds n = ⟨n, "gid://shopify/Customer/" ++ n⟩ ∧
    normalizeCustomerIds ("gid://shopify/Customer/" ++ n) =
      ⟨n, "gid://shopify/Customer/" ++ n⟩ := by
  constructor
  · rw [normalizeCustomerIds]
    rw [matchGidAux_all_digits n.data h2]
  · rw [normalizeCustomerIds]
    have hdata : ("gid://shopify/Customer/" ++ n).data = gidLit ++ n.data := by
      simp [gidLit, String.data_append]
    rw [hdata, matchGidAux_on_gid n.data h1 h2]

/-- Witness for C3 at the concrete id string `"123"`. -/
theorem normalize_form_insensitive_witness :
    normalizeCustomerIds "123" = ⟨"123", "gid://shopify/Customer/123"⟩ ∧
    normalizeCustomerIds "gid://shopify/Customer/123" =
      ⟨"123", "gid://shopify/Customer/123"⟩ :=
  normalize_form_insensitive "123" (by decide) (by decide)

/-! Retry policy (`api/maintenance.js` lines 29-41) -/

/-- Detection of a rate-limit failure: the regex `/(429|rate limit)/i`
tested against the error message (`api/maintenance.js` line 34), i.e.
the lower-cased message contains `429` or `rate limit`. -/
def isRateLimit (msg : String) : Bool :=
  let lower := msg.data.map Char.toLower
  listContainsSub "429".data lower || listContainsSub "rate limit".data lower

/-- Trace of one `withRetry` invocation: the final outcome, how many
times the wrapped action ran, and the sleep durations, in order. -/
structure RetryTrace (α : Type) where
  result : Except String α
  attempts : Nat
  waits : List Nat
deriving Repr

/-- Model of `withRetry(fn, retries = 3, delay = 1000)` (`api/maintenance.js`
lines 29-41): run the action; on an error whose message carries a
rate-limit signal and with retries remaining, sleep `delay`, then recurse
with `retries - 1` and `delay * 2`; otherwise rethrow.  The action is
modelled as a function of the attempt index (so an action may fail some
number of times and then succeed); the trace accumulates attempt counts
and the waited durations. -/
def withRetry {α : Type} (fn : Nat → Except String α) :
    Nat → Nat → Nat → RetryTrace α
  | 0, _, attempt =>
    match fn attempt with
    | Except.ok v => ⟨Except.ok v, 1, []⟩
    | Except.error msg => ⟨Except.error msg, 1, []⟩
  | r + 1, delay, attempt =>
    match fn attempt with
    | Except.ok v => ⟨Except.ok v, 1, []⟩
    | Except.error msg =>
      if isRateLimit msg then
        let t := withRetry fn r (delay * 2) (attempt + 1)
        ⟨t.result, t.attempts + 1, delay :: t.waits⟩
      else ⟨Except.error msg, 1, []⟩

/-- C7: exponential backoff progression.  If the action fails with a
rate-limit signal on its first two runs and succeeds on the third, then
`withRetry` with the default budget of 3 and `initialDelay = 1000`
returns the success result, runs the action exactly 3 times, and sleeps
exactly twice, for 1000 then 2000 milliseconds. -/
theorem withRetry_backoff_progression {α : Type} (fn : Nat → Except String α)
    (v : α) (m0 m1 : String)
    (h0 : fn 0 = Except.error m0) (r0 : isRateLimit m0 = true)
    (h1 : fn 1 = Except.error m1) (r1 : isRateLimit m1 = true)
    (h2 : fn 2 = Except.ok v) :
    withRetry fn 3 1000 0 = ⟨Except.ok v, 3, [1000, 2000]⟩ := by
  simp only [withRetry, h0, r0, h1, r1, h2, if_true]

/-- Witness for C7: an action failing with `429` twice then succeeding. -/
theorem withRetry_backoff_progression_witness :
    withRetry (fun i => if i < 2 then Except.error "429 Too Many Requests"
      else Except.ok 7) 3 1000 0 =
      ⟨Except.ok 7, 3, [1000, 2000]⟩ :=
  withRetry_backoff_progression _ 7 "429 Too Many Requests"
    "429 Too Many Requests" rfl (by decide) rfl (by decide) rfl

lemma withRetry_attempts_le {α : Type} (fn : Nat → Except String α) :
    ∀ retries delay attempt,
      (withRetry fn retries delay attempt).attempts ≤ retries + 1 := by
  intro retries
  induction retries with
  | zero =>
    intro d a
    simp only [withRetry]
    cases fn a <;> simp
  | succ r ih =>
    intro d a
    simp only [withRetry]
    cases fn a with
    | ok v => simp
    | error msg =>
      cases h : isRateLimit msg with
      | true =>
        simp only [h, if_true]
        have := ih (d * 2) (a + 1)
        omega
      | false =>
        simp [h]

/-- Counterexample for C8 as stated: under an action that always fails
with a rate-limit signal, `withRetry` with the default budget runs the
action 4 times (one initial attempt plus 3 retries) before propagating
the failure — not at most 3 times. -/
theorem withRetry_four_attempts_counterexample :
    (withRetry (fun _ => Except.error "429 Too Many Requests" :
        Nat → Except String Nat) 3 1000 0).attempts = 4 ∧
    ¬ ((withRetry (fun _ => Except.error "429 Too Many Requests" :
        Nat → Except String Nat) 3 1000 0).attempts ≤ 3) := by
  constructor
  · rfl
  · decide

/-- C8 (amended): with the default retry budget of 3, the action runs at
most 4 times in total (one initial attempt plus up to 3 retries) even
under unbounded consecutive rate-limit failures, and a failure without a
rate-limit signal is propagated immediately after a single run, with no
retry and no wait. -/
theorem withRetry_attempt_cap {α : Type} (fn : Nat → Except String α)
    (retries delay attempt : Nat) :
    (withRetry fn 3 delay attempt).attempts ≤ 4 ∧
    (∀ msg, fn attempt = Except.error msg → isRateLimit msg = false →
      withRetry fn retries delay attempt = ⟨Except.error msg, 1, []⟩) := by
  constructor
  · exact withRetry_attempts_le fn 3 delay attempt
  · intro msg hmsg hrl
    cases retries with
    | zero => simp only [withRetry, hmsg]
    | succ r => simp only [withRetry, hmsg, hrl, if_false, Bool.false_eq_true]

/-- Witness for C8 (amended): the attempt cap at a concrete always-rate-
limited action, and immediate propagation of a non-rate-limit failure. -/
theorem withRetry_attempt_cap_witness :
    (withRetry (fun _ => Except.error "429" : Nat → Except String Nat)
      3 1000 0).attempts ≤ 4 ∧
    withRetry (fun _ => Except.error "boom" : Nat → Except String Nat)
      3 1000 0 = ⟨Except.error "boom", 1, []⟩ :=
  ⟨(withRetry_attempt_cap (fun _ => Except.error "429") 3 1000 0).1,
   (withRetry_attempt_cap (fun _ => Except.error "boom") 3 1000 0).2
     "boom" rfl (by decide)⟩

/-! Issuance coordinator (`api/generate-discount.js` lines 41-58 and
194-222) -/

/-- A discount code as returned by the Catalog Service
(`res.discount_code` of `createDiscountCode`); `usage_count` and
`created_at` are the fields the maintenance sweep reads. -/
structure DiscountCode where
  id : Nat
  code : String
  usage_count : Int
  created_at : Int
deriving DecidableEq, Repr

/-- A metafield record as returned by the Shopify REST metafield
lookup; `nspace` models the JavaScript field `namespace`. -/
structure Metafield where
  nspace : String
  key : String
  value : String
  id : Nat
deriving DecidableEq, Repr

/-- The value `getExistingWelcomeCode` returns when a metafield is
found: `{ code: mf.value, metafieldId: mf.id }`. -/
structure ExistingCode where
  code : String
  metafieldId : Nat
deriving DecidableEq, Repr

/-- The not-found test of `getExistingWelcomeCode` line 55: the error
message contains the substring `404`. -/
def has404 (msg : String) : Bool := listContainsSub "404".data msg.data

/-- The collision test of the handler line 210: the error message
contains the substring `422`. -/
def has422 (msg : String) : Bool := listContainsSub "422".data msg.data

/-- Model of `getExistingWelcomeCode` (`api/generate-discount.js` lines 41-58):
the remote metafield lookup outcome is passed in as an `Except` value.
On success, filter client-side for namespace `custom` and key
`welcome_discount_code`.  On failure, only a message containing `404`
is treated as "no metafield"; any other error is rethrown unchanged. -/
def getExistingWelcomeCode (lookup : Except String (List Metafield)) :
    Except String (Option ExistingCode) :=
  match lookup with
  | Except.ok data =>
    match data.find? (fun m =>
        m.nspace == "custom" && m.key == "welcome_discount_code") with
    | some mf => Except.ok (some ⟨mf.value, mf.id⟩)
    | none => Except.ok none
  | Except.error e => if has404 e then Except.ok none else Except.error e

/-- The handler's collision loop (`api/generate-discount.js` lines
201-212): up to `tries` attempts, `attempt i` being the Catalog
Service's answer to the `i`-th creation request.  Returns the created
code (or `none` when all tries collided, or the non-collision error
that aborted the loop) together with the number of creation calls
made.  An error whose message contains `422` means "collision: retry
with a fresh candidate"; any other error aborts immediately. -/
def createLoop (attempt : Nat → Except String DiscountCode) :
    Nat → Nat → Except String (Option DiscountCode) × Nat
  | _, 0 => (Except.ok none, 0)
  | i, t + 1 =>
    match attempt i with
    | Except.ok d => (Except.ok (some d), 1)
    | Except.error msg =>
      if has422 msg then
        let r := createLoop attempt (i + 1) t
        (r.1, r.2 + 1)
      else (Except.error msg, 1)

/-- Trace of one issuance invocation: the HTTP-level outcome (success
payload `(code, reused)` or the error message of the 500 response),
the number of idempotency lookups, the number of creation calls, and
the codes passed to the metafield write. -/
structure IssueOutcome where
  response : Except String (String × Bool)
  lookupCalls : Nat
  createCalls : Nat
  writes : List String
deriving Repr

/-- The creation-and-persist phase of the handler (lines 201-218),
entered when no existing welcome code was found: run the 3-try
collision loop over candidates `rand i`; if nothing was created, fail
with the exhausted-retries error; otherwise persist via the metafield
write and answer `(code, reused = false)`. -/
def createAndPersist (rand : Nat → String)
    (create : Nat → String → Except String DiscountCode)
    (write : String → Except String Unit) : IssueOutcome :=
  let r := createLoop (fun i => create i (rand i)) 0 3
  match r.1 with
  | Except.error e => ⟨Except.error e, 1, r.2, []⟩
  | Except.ok none =>
    ⟨Except.error "Unable to create a unique discount code after retries.",
      1, r.2, []⟩
  | Except.ok (some d) =>
    match write d.code with
    | Except.ok _ => ⟨Except.ok (d.code, false), 1, r.2, [d.code]⟩
    | Except.error e => ⟨Except.error e, 1, r.2, [d.code]⟩

/-- The issuance operation `issueWelcomeCode`: the try-block of the handler (lines 194-222).
First the idempotency lookup; a truthy existing code (`existing?.code`,
i.e. a non-empty string) is returned immediately with `reused = true`
and no further calls; a lookup failure other than not-found is the
operation's failure; otherwise creation proceeds. -/
def issueWelcomeCode (lookup : Except String (List Metafield))
    (rand : Nat → String)
    (create : Nat → String → Except String DiscountCode)
    (write : String → Except String Unit) : IssueOutcome :=
  match getExistingWelcomeCode lookup with
  | Except.error e => ⟨Except.error e, 1, 0, []⟩
  | Except.ok (some ec) =>
    if ec.code = "" then createAndPersist rand create write
    else ⟨Except.ok (ec.code, true), 1, 0, []⟩
  | Except.ok none => createAndPersist rand create write

/-- A customer state: the welcome code recorded on the customer
record, if any.  The idempotency lookup over this state returns the
metafield list the Shopify REST call would produce. -/
def lookupOfState (state : Option String) : Except String (List Metafield) :=
  match state with
  | none => Except.ok []
  | some c => Except.ok [⟨"custom", "welcome_discount_code", c, 1⟩]

/-- One issuance invocation against a customer state, with the
metafield write always succeeding and updating the state. -/
def issueOnState (rand : Nat → String)
    (create : Nat → String → Except String DiscountCode)
    (state : Option String) : IssueOutcome × Option String :=
  let out := issueWelcomeCode (lookupOfState state) rand create
    (fun _ => Except.ok ())
  (out, out.writes.foldl (fun _ c => some c) state)

/-- C1: issuance is idempotent per customer.  (a) If the idempotency
lookup finds a non-empty code, the call answers that code with
`reused = true`, makes no creation call and no write.  (b) Starting
from a state with no recorded code, with the first creation attempt
succeeding with a non-empty code, the first call answers
`(d.code, reused = false)`, records `d.code` on the customer, and a
second call from the resulting state answers the same code with
`reused = true` and again makes no creation call and no write. -/
theorem issuance_idempotent (lookup : Except String (List Metafield))
    (rand : Nat → String)
    (create : Nat → String → Except String DiscountCode)
    (write : String → Except String Unit)
    (ec : ExistingCode) (d : DiscountCode)
    (ha : getExistingWelcomeCode lookup = Except.ok (some ec))
    (ha2 : ec.code ≠ "")
    (hb : create 0 (rand 0) = Except.ok d) (hd : d.code ≠ "") :
    issueWelcomeCode lookup rand create write =
      ⟨Except.ok (ec.code, true), 1, 0, []⟩ ∧
    (issueOnState rand create none).1.response =
      Except.ok (d.code, false) ∧
    (issueOnState rand create none).2 = some d.code ∧
    (issueOnState rand create ((issueOnState rand create none).2)).1 =
      ⟨Except.ok (d.code, true), 1, 0, []⟩ := by
  have hfirst : issueOnState rand create none =
      (⟨Except.ok (d.code, false), 1, 1, [d.code]⟩, some d.code) := by
    simp [issueOnState, issueWelcomeCode, getExistingWelcomeCode, lookupOfState,
      createAndPersist, createLoop, hb]
  refine ⟨?_, ?_, ?_, ?_⟩
  · simp only [issueWelcomeCode, ha]
    simp [ha2]
  · rw [hfirst]
  · rw [hfirst]
  · rw [hfirst]
    simp [issueOnState, issueWelcomeCode, getExistingWelcomeCode, lookupOfState,
      List.find?, hd]

/-- Witness for C1 at concrete remote outcomes. -/
theorem issuance_idempotent_witness :
    issueWelcomeCode
        (Except.ok [⟨"custom", "welcome_discount_code", "MISHMUSH-OLD", 9⟩])
        (fun _ => "MISHMUSH-NEW")
        (fun _ c => Except.ok ⟨5, c, 0, 0⟩)
        (fun _ => Except.ok ()) =
      ⟨Except.ok ("MISHMUSH-OLD", true), 1, 0, []⟩ ∧
    (issueOnState (fun _ => "MISHMUSH-NEW")
        (fun _ c => Except.ok ⟨5, c, 0, 0⟩) none).1.response =
      Except.ok ("MISHMUSH-NEW", false) ∧
    (issueOnState (fun _ => "MISHMUSH-NEW")
        (fun _ c => Except.ok ⟨5, c, 0, 0⟩) none).2 = some "MISHMUSH-NEW" ∧
    (issueOnState (fun _ => "MISHMUSH-NEW") (fun _ c => Except.ok ⟨5, c, 0, 0⟩)
        ((issueOnState (fun _ => "MISHMUSH-NEW")
          (fun _ c => Except.ok ⟨5, c, 0, 0⟩) none).2)).1 =
      ⟨Except.ok ("MISHMUSH-NEW", true), 1, 0, []⟩ :=
  issuance_idempotent
    (Except.ok [⟨"custom", "welcome_discount_code", "MISHMUSH-OLD", 9⟩])
    (fun _ => "MISHMUSH-NEW") (fun _ c => Except.ok ⟨5, c, 0, 0⟩)
    (fun _ => Except.ok ()) ⟨"MISHMUSH-OLD", 9⟩ ⟨5, "MISHMUSH-NEW", 0, 0⟩
    rfl (by decide) rfl (by decide)

/-- C2: if all 3 creation attempts fail with a uniqueness-conflict
(`422`) signal, issuance fails with the exhausted-retries error, makes
exactly 3 creation calls, and performs no metafield write. -/
theorem issuance_exhaustion (lookup : Except String (List Metafield))
    (rand : Nat → String)
    (create : Nat → String → Except String DiscountCode)
    (write : String → Except String Unit)
    (hl : getExistingWelcomeCode lookup = Except.ok none)
    (hc : ∀ i, i < 3 → ∃ msg, create i (rand i) = Except.error msg ∧
      has422 msg = true) :
    issueWelcomeCode lookup rand create write =
      ⟨Except.error "Unable to create a unique discount code after retries.",
        1, 3, []⟩ := by
  obtain ⟨m0, e0, c0⟩ := hc 0 (by omega)
  obtain ⟨m1, e1, c1⟩ := hc 1 (by omega)
  obtain ⟨m2, e2, c2⟩ := hc 2 (by omega)
  simp only [issueWelcomeCode, hl]
  simp [createAndPersist, createLoop, e0, e1, e2, c0, c1, c2]

/-- Witness for C2: every creation attempt answers a 422 conflict. -/
theorem issuance_exhaustion_witness :
    issueWelcomeCode (Except.ok []) (fun _ => "MISHMUSH-X")
      (fun _ _ => Except.error "Shopify API 422 Unprocessable Entity")
      (fun _ => Except.ok ()) =
      ⟨Except.error "Unable to create a unique discount code after retries.",
        1, 3, []⟩ :=
  issuance_exhaustion (Except.ok []) (fun _ => "MISHMUSH-X")
    (fun _ _ => Except.error "Shopify API 422 Unprocessable Entity")
    (fun _ => Except.ok ()) rfl
    (fun i _ => ⟨"Shopify API 422 Unprocessable Entity", rfl, by decide⟩)

lemma createLoop_calls_pos (attempt : Nat → Except String DiscountCode)
    (i t : Nat) : 1 ≤ (createLoop attempt i (t + 1)).2 := by
  rw [createLoop]
  cases attempt i with
  | ok d => simp
  | error msg =>
    cases h : has422 msg with
    | true => simp [h]
    | false => simp [h]

lemma createAndPersist_calls (rand : Nat → String)
    (create : Nat → String → Except String DiscountCode)
    (write : String → Except String Unit) :
    (createAndPersist rand create write).createCalls =
      (createLoop (fun i => create i (rand i)) 0 3).2 := by
  rw [createAndPersist]
  rcases hr : (createLoop (fun i => create i (rand i)) 0 3).1 with e | (_ | d)
  · simp [hr]
  · simp [hr]
  · cases hw : write d.code <;> simp [hr, hw]

/-- C4: the idempotency lookup distinguishes failure classes.  If the
lookup fails with a message carrying the not-found signal (`404`),
`getExistingWelcomeCode` answers the absent result and issuance
continues to creation (at least one creation call is made); if the
lookup fails with any other message, that error is propagated
unchanged as the failure of the whole operation, with no creation call
and no write. -/
theorem lookup_failure_classes (e : String) (rand : Nat → String)
    (create : Nat → String → Except String DiscountCode)
    (write : String → Except String Unit) :
    (has404 e = true →
      getExistingWelcomeCode (Except.error e) = Except.ok none ∧
      1 ≤ (issueWelcomeCode (Except.error e) rand create write).createCalls) ∧
    (has404 e = false →
      getExistingWelcomeCode (Except.error e) = Except.error e ∧
      issueWelcomeCode (Except.error e) rand create write =
        ⟨Except.error e, 1, 0, []⟩) := by
  constructor
  · intro h4
    have hg : getExistingWelcomeCode (Except.error e) = Except.ok none := by
      simp [getExistingWelcomeCode, h4]
    refine ⟨hg, ?_⟩
    simp only [issueWelcomeCode, hg, createAndPersist_calls]
    exact createLoop_calls_pos (fun i => create i (rand i)) 0 2
  · intro h4
    have hg : getExistingWelcomeCode (Except.error e) = Except.error e := by
      simp [getExistingWelcomeCode, h4]
    refine ⟨hg, ?_⟩
    simp only [issueWelcomeCode, hg]

/-- Witness for C4: a `404` lookup failure is absorbed and creation is
reached; a `500` lookup failure is propagated unchanged with no
creation call and no write. -/
theorem lookup_failure_classes_witness :
    (getExistingWelcomeCode (Except.error "Shopify API 404 Not Found: gone") =
        Except.ok none ∧
      1 ≤ (issueWelcomeCode (Except.error "Shopify API 404 Not Found: gone")
        (fun _ => "MISHMUSH-A") (fun _ c => Except.ok ⟨1, c, 0, 0⟩)
        (fun _ => Except.ok ())).createCalls) ∧
    (getExistingWelcomeCode
        (Except.error "Shopify API 500 Internal Server Error: oops") =
        Except.error "Shopify API 500 Internal Server Error: oops" ∧
      issueWelcomeCode (Except.error "Shopify API 500 Internal Server Error: oops")
        (fun _ => "MISHMUSH-A") (fun _ c => Except.ok ⟨1, c, 0, 0⟩)
        (fun _ => Except.ok ()) =
        ⟨Except.error "Shopify API 500 Internal Server Error: oops", 1, 0, []⟩) :=
  ⟨(lookup_failure_classes "Shopify API 404 Not Found: gone"
      (fun _ => "MISHMUSH-A") (fun _ c => Except.ok ⟨1, c, 0, 0⟩)
      (fun _ => Except.ok ())).1 (by decide),
   (lookup_failure_classes "Shopify API 500 Internal Server Error: oops"
      (fun _ => "MISHMUSH-A") (fun _ c => Except.ok ⟨1, c, 0, 0⟩)
      (fun _ => Except.ok ())).2 (by decide)⟩

/-! Pagination walker (`api/maintenance.js` lines 70-93) -/

/-- The maximal run of characters other than `>` (the `[^>]+` part of
the link-header regex). -/
def nonGtRun : List Char → List Char
  | [] => []
  | c :: cs => if c = '>' then [] else c :: nonGtRun cs

/-- The literal tail of the link-header regex `<([^>]+)>; rel="next"`. -/
def relNextLit : List Char := ">; rel=\"next\"".data

/-- First match of the regex `<([^>]+)>; rel="next"` (`api/maintenance.js`
line 88): at each `<`, capture the maximal non-`>` run; the match
succeeds when the run is non-empty and followed by the literal
`>; rel="next"`; otherwise scanning resumes at the next position. -/
def findNextLink : List Char → Option (List Char)
  | [] => none
  | c :: rest =>
    if c = '<' then
      let cap := nonGtRun rest
      if cap ≠ [] ∧ relNextLit.isPrefixOf (rest.drop cap.length) then some cap
      else findNextLink rest
    else findNextLink rest

/-- Model of `link && link.match(...)`: a missing link header yields no
continuation reference. -/
def parseNextLink (link : Option String) : Option String :=
  link.bind (fun l => (findNextLink l.data).map (fun cs => ⟨cs⟩))

/-- One page of the discount-code listing: the body's `discount_codes`
array and the response's `link` header (if any). -/
structure Page where
  discount_codes : List DiscountCode
  link : Option String
deriving Repr

/-- The `while (nextURL)` loop of `fetchAllDiscountCodes`
(`api/maintenance.js` lines 70-93), with the remote service modelled by
the list of its successive page responses (the stripping of the host
prefix from the next URL only rewrites the request string and does not
change which page the service answers next, so it is not modelled).
Each iteration appends the page's codes and continues iff the link
header carries a `rel="next"` reference; an absent reference ends the
loop successfully.  Returns the accumulated codes and the number of
calls made, or `none` when the loop requests a page beyond the supplied
responses. -/
def fetchAllDiscountCodes : List Page → Option (List DiscountCode × Nat)
  | [] => none
  | p :: rest =>
    match parseNextLink p.link with
    | none => some (p.discount_codes, 1)
    | some _ => (fetchAllDiscountCodes rest).map
        (fun r => (p.discount_codes ++ r.1, r.2 + 1))

/-- A finite multi-page source in the sense of C5: at least one page,
every non-final page carries a continuation reference, the final page
carries none. -/
def wellFormedPages : List Page → Bool
  | [] => false
  | [p] => (parseNextLink p.link).isNone
  | p :: q :: rest => (parseNextLink p.link).isSome && wellFormedPages (q :: rest)

/-- C5: pagination is complete and terminates on an absent cursor.  For
every finite page sequence in which each non-final page carries a
continuation reference and the final page carries none, the walker
returns (successfully) exactly the concatenation of all pages' items in
page order and makes exactly one underlying call per page. -/
theorem pagination_complete (pages : List Page)
    (h : wellFormedPages pages = true) :
    fetchAllDiscountCodes pages =
      some ((pages.map Page.discount_codes).flatten, pages.length) := by
  induction pages with
  | nil => simp [wellFormedPages] at h
  | cons p rest ih =>
    cases rest with
    | nil =>
      have hn : parseNextLink p.link = none := by
        simpa [wellFormedPages, Option.isNone_iff_eq_none] using h
      simp [fetchAllDiscountCodes, hn]
    | cons q rest' =>
      rw [wellFormedPages, Bool.and_eq_true] at h
      obtain ⟨hs, hwf⟩ := h
      obtain ⟨u, hu⟩ := Option.isSome_iff_exists.mp hs
      rw [fetchAllDiscountCodes, hu, ih hwf]
      simp

/-- A page of 250 identical-shape codes for the C5 witness scenario. -/
def witnessPage (n : Nat) (link : Option String) : Page :=
  ⟨(List.range 250).map (fun i => ⟨n * 1000 + i, "MISHMUSH-W", 0, 0⟩), link⟩

/-- The C5 witness scenario: 3 pages of 250 items; the first two carry a
`rel="next"` link header, the last carries none. -/
def witnessPages : List Page :=
  [witnessPage 0 (some "<https://shop.example/admin/api/2025-10/a>; rel=\"next\""),
   witnessPage 1 (some "<https://shop.example/admin/api/2025-10/b>; rel=\"next\""),
   witnessPage 2 none]

/-- Witness for C5: on 3 pages of 250 items the walker returns all 750
items in page order with exactly 3 underlying calls. -/
theorem pagination_complete_witness :
    wellFormedPages witnessPages = true ∧
    fetchAllDiscountCodes witnessPages =
      some ((witnessPages.map Page.discount_codes).flatten, 3) ∧
    ((witnessPages.map Page.discount_codes).flatten).length = 750 :=
  ⟨by decide, pagination_complete witnessPages (by decide), by
    simp [witnessPages, witnessPage]⟩

/-! Maintenance sweep (`api/maintenance.js` lines 19 and 62-130) -/

/-- The constant `DAYS_TO_KEEP` (`api/maintenance.js` line 19). -/
def DAYS_TO_KEEP : Nat := 8

/-- Model of `isOlderThan` (`api/maintenance.js` lines 62-66): the creation
instant lies strictly before `now` minus the threshold.  Date values are
modelled as millisecond timestamps. -/
def isOlderThan (created now : Int) (days : Nat) : Bool :=
  created < now - (days : Int) * 24 * 60 * 60 * 1000

/-- The selection part of `deleteOldCodes` (`api/maintenance.js` lines
95-114): the codes filtered as older than `DAYS_TO_KEEP` are the ones
deleted (one deletion call each, in order), and the returned count is
the number of them; deletions themselves are the scenario where every
delete call succeeds. -/
def deleteOldCodes (now : Int) (codes : List DiscountCode) :
    List DiscountCode × Nat :=
  let oldCodes := codes.filter (fun c => isOlderThan c.created_at now DAYS_TO_KEEP)
  (oldCodes, oldCodes.length)

/-- C6: the sweep deletes exactly the stale codes — a code is deleted
iff `now - createdAt` strictly exceeds 8 days; and in the concrete
day-0 / day-7 / day-10 scenario evaluated at `now` = day 10, exactly
the day-0 code is deleted. -/
theorem retention_threshold :
    (∀ (now : Int) (codes : List DiscountCode) (c : DiscountCode),
      c ∈ (deleteOldCodes now codes).1 ↔
        c ∈ codes ∧ now - c.created_at > 8 * 24 * 60 * 60 * 1000) ∧
    deleteOldCodes ((10 : Int) * 24 * 60 * 60 * 1000)
      [⟨1, "MISHMUSH-D0", 0, 0⟩,
       ⟨2, "MISHMUSH-D7", 0, (7 : Int) * 24 * 60 * 60 * 1000⟩,
       ⟨3, "MISHMUSH-D10", 0, (10 : Int) * 24 * 60 * 60 * 1000⟩] =
      ([⟨1, "MISHMUSH-D0", 0, 0⟩], 1) := by
  constructor
  · intro now codes c
    simp only [deleteOldCodes, List.mem_filter, isOlderThan, DAYS_TO_KEEP,
      decide_eq_true_eq]
    constructor
    · rintro ⟨h1, h2⟩
      refine ⟨h1, ?_⟩
      omega
    · rintro ⟨h1, h2⟩
      refine ⟨h1, ?_⟩
      omega
  · decide

/-- One sample row of `getDiscountCodeStats`. -/
structure CodeSample where
  code : String
  usage_count : Int
  created_at : Int
deriving DecidableEq, Repr

/-- The result of `getDiscountCodeStats`. -/
structure CodeStats where
  total : Nat
  used : Nat
  unused : Nat
  samples : List CodeSample
deriving DecidableEq, Repr

/-- Model of `getDiscountCodeStats` (`api/maintenance.js` lines 116-130). -/
def getDiscountCodeStats (codes : List DiscountCode) : CodeStats :=
  let used := (codes.filter (fun c => c.usage_count > 0)).length
  let unused := (codes.filter (fun c => c.usage_count == 0)).length
  { total := codes.length
  , used := used
  , unused := unused
  , samples := (codes.take 5).map (fun c => ⟨c.code, c.usage_count, c.created_at⟩) }

lemma filter_pos_add_filter_zero (codes : List DiscountCode)
    (h : ∀ c ∈ codes, 0 ≤ c.usage_count) :
    (codes.filter (fun c => c.usage_count > 0)).length +
      (codes.filter (fun c => c.usage_count == 0)).length = codes.length := by
  induction codes with
  | nil => rfl
  | cons c cs ih =>
    have hc := h c (List.mem_cons_self c cs)
    have ih2 := ih (fun d hd => h d (List.mem_cons_of_mem c hd))
    rcases lt_or_eq_of_le hc with hpos | hzero
    · have h1 : decide (c.usage_count > 0) = true := by simp [hpos]
      have h2 : (c.usage_count == 0) = false := by
        simp only [beq_eq_false_iff_ne]
        omega
      simp only [List.filter_cons, h1, h2, if_true, Bool.false_eq_true, if_false,
        List.length_cons]
      omega
    · have h1 : decide (c.usage_count > 0) = false := by
        simp only [decide_eq_false_iff_not]
        omega
      have h2 : (c.usage_count == 0) = true := by
        simp only [beq_iff_eq]
        omega
      simp only [List.filter_cons, h1, h2, if_true, Bool.false_eq_true, if_false,
        List.length_cons]
      omega

/-- C10: the statistics partition the code set.  When every
`usage_count` is non-negative, `used + unused = total`, the total is the
length of the input, and the samples are exactly the projections of the
first `min 5 total` codes. -/
theorem stats_partition (codes : List DiscountCode)
    (h : ∀ c ∈ codes, 0 ≤ c.usage_count) :
    (getDiscountCodeStats codes).used + (getDiscountCodeStats codes).unused =
      (getDiscountCodeStats codes).total ∧
    (getDiscountCodeStats codes).total = codes.length ∧
    (getDiscountCodeStats codes).samples.length = min 5 codes.length ∧
    (getDiscountCodeStats codes).samples =
      (codes.take 5).map (fun c => ⟨c.code, c.usage_count, c.created_at⟩) := by
  refine ⟨filter_pos_add_filter_zero codes h, rfl, ?_, rfl⟩
  simp [getDiscountCodeStats]

/-- Witness for C10 at a concrete three-element code list. -/
theorem stats_partition_witness :
    (getDiscountCodeStats [⟨1, "MISHMUSH-A", 2, 0⟩, ⟨2, "MISHMUSH-B", 0, 0⟩,
        ⟨3, "MISHMUSH-C", 5, 0⟩]).used +
      (getDiscountCodeStats [⟨1, "MISHMUSH-A", 2, 0⟩, ⟨2, "MISHMUSH-B", 0, 0⟩,
        ⟨3, "MISHMUSH-C", 5, 0⟩]).unused =
      (getDiscountCodeStats [⟨1, "MISHMUSH-A", 2, 0⟩, ⟨2, "MISHMUSH-B", 0, 0⟩,
        ⟨3, "MISHMUSH-C", 5, 0⟩]).total ∧
    (getDiscountCodeStats [⟨1, "MISHMUSH-A", 2, 0⟩, ⟨2, "MISHMUSH-B", 0, 0⟩,
        ⟨3, "MISHMUSH-C", 5, 0⟩]).total = 3 ∧
    (getDiscountCodeStats [⟨1, "MISHMUSH-A", 2, 0⟩, ⟨2, "MISHMUSH-B", 0, 0⟩,
        ⟨3, "MISHMUSH-C", 5, 0⟩]).samples.length = min 5 3 ∧
    (getDiscountCodeStats [⟨1, "MISHMUSH-A", 2, 0⟩, ⟨2, "MISHMUSH-B", 0, 0⟩,
        ⟨3, "MISHMUSH-C", 5, 0⟩]).samples =
      (([⟨1, "MISHMUSH-A", 2, 0⟩, ⟨2, "MISHMUSH-B", 0, 0⟩,
        ⟨3, "MISHMUSH-C", 5, 0⟩] : List DiscountCode).take 5).map
        (fun c => ⟨c.code, c.usage_count, c.created_at⟩) :=
  stats_partition [⟨1, "MISHMUSH-A", 2, 0⟩, ⟨2, "MISHMUSH-B", 0, 0⟩,
    ⟨3, "MISHMUSH-C", 5, 0⟩] (by decide)

/-! Code generator (`api/generate-discount.js` lines 37-39) -/

/-- Model of `s.substring(a, b)` for `a ≤ b`: the characters from index `a`
(inclusive) to `b` (exclusive), clamped to the string's length. -/
def jsSubstring (s : String) (a b : Nat) : String :=
  ⟨(s.data.drop a).take (b - a)⟩

/-- Model of `toUpperCase` on one character of the ASCII range that base-36
digit strings inhabit: `a`-`z` maps to `A`-`Z`, everything else is
unchanged. -/
def upChar (c : Char) : Char :=
  if 'a' ≤ c ∧ c ≤ 'z' then Char.ofNat (c.toNat - 32) else c

/-- Model of `toUpperCase` of a string, character by character. -/
def jsToUpper (s : String) : String := ⟨s.data.map upChar⟩

/-- Model of `randomCode` (`api/generate-discount.js` lines 37-39):
`` `MISHMUSH-${Math.random().toString(36).substring(2, 8).toUpperCase()}` ``.
The randomness source is modelled by the string `Math.random().toString(36)`
evaluates to — the base-36 rendering of the drawn value. -/
def randomCode (randStr : String) : String :=
  "MISHMUSH-" ++ jsToUpper (jsSubstring randStr 2 8)

/-- A base-36 digit: `0`-`9` or `a`-`z` (the characters
`Number.prototype.toString(36)` emits). -/
def base36Digit (c : Char) : Bool := c.isDigit || ('a' ≤ c && c ≤ 'z')

/-- The possible outputs of `Math.random().toString(36)` for a draw in
`[0, 1)`: either `"0"` (the draw 0), or `"0."` followed by a non-empty
run of base-36 digits. -/
def jsRandomRepr (s : String) : Prop :=
  s = "0" ∨ ∃ ds : List Char, ds ≠ [] ∧ (∀ c ∈ ds, base36Digit c = true) ∧
    s = ⟨'0' :: '.' :: ds⟩

lemma uint32_toNat_of_le {a b : UInt32} (h : a ≤ b) : a.toNat ≤ b.toNat := h

lemma upChar_base36 (c : Char) (h : base36Digit c = true) :
    (upChar c).isDigit = true ∨ ('A' ≤ upChar c ∧ upChar c ≤ 'Z') := by
  unfold base36Digit at h
  simp only [Bool.or_eq_true, Bool.and_eq_true, decide_eq_true_eq] at h
  rcases h with hdig | ⟨h1, h2⟩
  · left
    have hne : ¬ ('a' ≤ c ∧ c ≤ 'z') := by
      unfold Char.isDigit at hdig
      simp only [Bool.and_eq_true, decide_eq_true_eq] at hdig
      rintro ⟨ha, _⟩
      have k1 : c.val.toNat ≤ 57 := uint32_toNat_of_le hdig.2
      have k2 : (97 : Nat) ≤ c.val.toNat :=
        uint32_toNat_of_le (show ('a').val ≤ c.val from ha)
      omega
    simp [upChar, hne, hdig]
  · right
    have k1 : (97 : Nat) ≤ c.val.toNat :=
      uint32_toNat_of_le (show ('a').val ≤ c.val from h1)
    have k2 : c.val.toNat ≤ 122 :=
      uint32_toNat_of_le (show c.val ≤ ('z').val from h2)
    have hif : upChar c = Char.ofNat (c.toNat - 32) := by
      simp [upChar, h1, h2]
    rw [hif]
    have hc : c.toNat = c.val.toNat := rfl
    have hvalid : Nat.isValidChar (c.toNat - 32) := by
      left
      show c.toNat - 32 < 55296
      omega
    have htn : (Char.ofNat (c.toNat - 32)).toNat = c.toNat - 32 := by
      unfold Char.ofNat
      rw [dif_pos hvalid]
      rfl
    have hA : ('A').val.toNat = 65 := rfl
    have hZ : ('Z').val.toNat = 90 := rfl
    constructor
    · show ('A').val.toNat ≤ (Char.ofNat (c.toNat - 32)).val.toNat
      have he : (Char.ofNat (c.toNat - 32)).val.toNat = c.toNat - 32 := htn
      rw [he, hA]
      omega
    · show (Char.ofNat (c.toNat - 32)).val.toNat ≤ ('Z').val.toNat
      have he : (Char.ofNat (c.toNat - 32)).val.toNat = c.toNat - 32 := htn
      rw [he, hZ]
      omega

/-- Counterexample for C9 as stated: the suffix does not have the same
fixed length for every randomness value.  The draw 0.5 renders in base
36 as `0.i`, giving suffix `I` of length 1, while a typical draw such
as the one rendering as `0.4fzyo82mvyr` gives a length-6 suffix; hence
no single length `L` fits all valid randomness values. -/
theorem randomCode_fixed_length_counterexample :
    jsRandomRepr "0.i" ∧ jsRandomRepr "0.4fzyo82mvyr" ∧
    randomCode "0.i" = "MISHMUSH-I" ∧
    (jsToUpper (jsSubstring "0.i" 2 8)).length = 1 ∧
    (jsToUpper (jsSubstring "0.4fzyo82mvyr" 2 8)).length = 6 ∧
    ¬ ∃ L : Nat, ∀ s : String, jsRandomRepr s →
        (jsToUpper (jsSubstring s 2 8)).length = L := by
  have hi : jsRandomRepr "0.i" := Or.inr ⟨['i'], by decide, by decide, rfl⟩
  have hl : jsRandomRepr "0.4fzyo82mvyr" :=
    Or.inr ⟨"4fzyo82mvyr".data, by decide, by decide, rfl⟩
  refine ⟨hi, hl, by decide, by decide, by decide, ?_⟩
  rintro ⟨L, hL⟩
  have e1 := hL "0.i" hi
  have e2 := hL "0.4fzyo82mvyr" hl
  rw [show (jsToUpper (jsSubstring "0.i" 2 8)).length = 1 from rfl] at e1
  rw [show (jsToUpper (jsSubstring "0.4fzyo82mvyr" 2 8)).length = 6 from rfl] at e2
  omega

/-- C9 (amended): for every value of the randomness source,
`randomCode` returns the fixed literal prefix `MISHMUSH-` followed by
the upper-cased suffix drawn from the randomness string, every
character of which is an upper-case letter or digit; the suffix's
length is at most 6 but varies with the random value (it is shorter
whenever the draw's base-36 rendering has fewer than 6 fraction
digits). -/
theorem randomCode_shape (s : String) (h : jsRandomRepr s) :
    ∃ suffix : String,
      randomCode s = "MISHMUSH-" ++ suffix ∧
      suffix.length ≤ 6 ∧
      ∀ c ∈ suffix.data, c.isDigit = true ∨ ('A' ≤ c ∧ c ≤ 'Z') := by
  rcases h with h0 | ⟨ds, hne, hds, hs⟩
  · subst h0
    exact ⟨"", rfl, by decide, by decide⟩
  · subst hs
    refine ⟨⟨(ds.take 6).map upChar⟩, rfl, ?_, ?_⟩
    · show ((ds.take 6).map upChar).length ≤ 6
      rw [List.length_map, List.length_take]
      omega
    · intro c hc
      simp only [String.data] at hc
      obtain ⟨c', hc', rfl⟩ := List.mem_map.mp hc
      exact upChar_base36 c' (hds c' (List.mem_of_mem_take hc'))

/-- Witness for the amended C9 at the draw rendering as
`0.4fzyo82mvyr`. -/
theorem randomCode_shape_witness :
    ∃ suffix : String,
      randomCode "0.4fzyo82mvyr" = "MISHMUSH-" ++ suffix ∧
      suffix.length ≤ 6 ∧
      ∀ c ∈ suffix.data, c.isDigit = true ∨ ('A' ≤ c ∧ c ≤ 'Z') :=
  randomCode_shape "0.4fzyo82mvyr"
    (Or.inr ⟨"4fzyo82mvyr".data, by decide, by decide, rfl⟩)

end MishMush
